import Mathlib

/-
  Verification development for the VPP forwarding core:
    - src/vnet/vnet/lisp-gpe/lisp_gpe_fwd_entry.c  (forwarding-entry lifecycle,
      path construction, two-table IP route model, L2 MAC table)
    - src/vnet/vnet/mpls/mpls_output.c             (vector rewrite pipeline)

  The C code is shallowly embedded: machine integers become Nat/Int (with
  explicit truncation where the C packs bit fields), pools and hash tables
  become association lists, and the external collaborators (FIB tables,
  adjacency provider, tenants, path lists) are modelled as explicit state
  records manipulated by executable functions that mirror the call sites.
-/

/-! ## Association-list helpers (hash tables / pools keyed by index) -/

def alookup {κ α : Type} [DecidableEq κ] : List (κ × α) → κ → Option α
  | [], _ => none
  | (k', v) :: rest, k => if k' = k then some v else alookup rest k

def aset {κ α : Type} [DecidableEq κ] : List (κ × α) → κ → α → List (κ × α)
  | [], k, v => [(k, v)]
  | (k', v') :: rest, k, v =>
      if k' = k then (k, v) :: rest else (k', v') :: aset rest k v

def aremove {κ α : Type} [DecidableEq κ] : List (κ × α) → κ → List (κ × α)
  | [], _ => []
  | (k', v') :: rest, k =>
      if k' = k then aremove rest k else (k', v') :: aremove rest k

/-! ## Basic protocol data -/

inductive IpVersion
  | ip4
  | ip6
deriving DecidableEq

/-- ip_address_t: version tag plus the address value. -/
structure IpAddr where
  version : IpVersion
  addr : Nat
deriving DecidableEq

/-- ip_prefix_t: a versioned address with a mask length. -/
structure IpPref where
  version : IpVersion
  addr : Nat
  len : Nat
deriving DecidableEq

def defaultIpPref : IpPref := { version := .ip4, addr := 0, len := 0 }

/-- fib_prefix_t as produced by ip_prefix_to_fib_prefix. -/
structure FibPfx where
  fp_proto : IpVersion
  fp_len : Nat
  fp_addr : Nat
deriving DecidableEq

/-- ip_prefix_to_fib_prefix: version becomes fp_proto, length/address copied. -/
def ip_pfx_to_fib_pfx (p : IpPref) : FibPfx :=
  { fp_proto := p.version, fp_len := p.len, fp_addr := p.addr }

/-! ## Vector rewrite pipeline (src/vnet/vnet/mpls/mpls_output.c) -/

/-- The rewrite descriptor fields of ip_adjacency_t.rewrite_header that
mpls_output_inline reads: rewritten byte count, MTU bound, egress interface
and the next-stage selector. -/
structure RewriteHeader where
  data_bytes : Nat
  max_l3_packet_bytes : Nat
  sw_if_index : Nat
  next_index : Nat
deriving DecidableEq

structure IpAdjacency where
  rewrite_header : RewriteHeader
deriving DecidableEq

/-- The vlib_buffer_t fields mpls_output_inline touches.  `current_data` is the
data pointer offset (an Int: the rewrite moves it backwards), `current_length`
the first-buffer length, `chain_rest_length` the total length of the chained
buffers that follow (so length-in-chain = current_length + chain_rest_length).
The bytes written before the data pointer by vnet_rewrite_one_header carry no
information used by this node, so packet payload content is not modelled. -/
structure VlibBuffer where
  current_data : Int
  current_length : Nat
  chain_rest_length : Nat
  error : Nat
  tx_sw_if_index : Nat
  tx_adj_index : Nat
deriving DecidableEq

def defaultVlibBuffer : VlibBuffer :=
  { current_data := 0, current_length := 0, chain_rest_length := 0,
    error := 0, tx_sw_if_index := 0, tx_adj_index := 0 }

def vlib_buffer_length_in_chain (p : VlibBuffer) : Nat :=
  p.current_length + p.chain_rest_length

/-- Error codes used by the node (the numeric values of the ip4 error enum are
declared outside src/; only their identity and distinctness matter here). -/
def IP4_ERROR_NONE : Nat := 0

def IP4_ERROR_MTU_EXCEEDED : Nat := 1

def MPLS_OUTPUT_NEXT_DROP : Nat := 0

/-- sizeof (ethernet_header_t): 6 + 6 + 2 bytes. -/
def sizeof_ethernet_header : Nat := 14

def counterGet (cs : List (Nat × Nat)) (i : Nat) : Nat := (alookup cs i).getD 0

/-- vlib_increment_combined_counter on the per-adjacency byte counter. -/
def counterAdd (cs : List (Nat × Nat)) (i : Nat) (v : Nat) : List (Nat × Nat) :=
  aset cs i (counterGet cs i + v)

structure MplsStepResult where
  buf : VlibBuffer
  next : Nat
  counters : List (Nat × Nat)
deriving DecidableEq

/-- One iteration of the per-packet loop of mpls_output_inline (the plain
mpls-output instantiation, is_midchain = 0; the midchain variant additionally
runs the adjacency fixup callback in the no-error branch).  Mirrors, in order:
the rewrite overlay, the conditional byte-counter update, the MTU
classification, and the two dispatch branches. -/
def mpls_output_step (adjGet : Nat → IpAdjacency) (counters : List (Nat × Nat))
    (p0 : VlibBuffer) : MplsStepResult :=
  let adj0 := adjGet p0.tx_adj_index
  let rw_len0 := adj0.rewrite_header.data_bytes
  let counters1 :=
    if sizeof_ethernet_header < rw_len0 then
      counterAdd counters p0.tx_adj_index (rw_len0 - sizeof_ethernet_header)
    else counters
  let error0 :=
    if adj0.rewrite_header.max_l3_packet_bytes < vlib_buffer_length_in_chain p0 then
      IP4_ERROR_MTU_EXCEEDED
    else IP4_ERROR_NONE
  let p1 := { p0 with error := error0 }
  if error0 = IP4_ERROR_NONE then
    { buf := { p1 with
        current_data := p1.current_data - (rw_len0 : Int),
        current_length := p1.current_length + rw_len0,
        tx_sw_if_index := adj0.rewrite_header.sw_if_index },
      next := adj0.rewrite_header.next_index,
      counters := counters1 }
  else
    { buf := p1, next := MPLS_OUTPUT_NEXT_DROP, counters := counters1 }

/-- The batch loop: packets are processed in order, threading the counter
state; each packet is emitted with its chosen next stage. -/
def mpls_output_batch (adjGet : Nat → IpAdjacency) :
    List (Nat × Nat) → List VlibBuffer → List (VlibBuffer × Nat) × List (Nat × Nat)
  | counters, [] => ([], counters)
  | counters, p :: rest =>
      let r := mpls_output_step adjGet counters p
      let rec' := mpls_output_batch adjGet r.counters rest
      ((r.buf, r.next) :: rec'.1, rec'.2)

def defaultStepPair : VlibBuffer × Nat := (defaultVlibBuffer, 0)

/-! ## LISP-GPE data model (src/vnet/vnet/lisp-gpe/lisp_gpe_fwd_entry.c) -/

/-- gid_address_t type tag.  The dispatcher handles GID_ADDR_IP_PREFIX and
GID_ADDR_MAC; every other tag (GID_ADDR_SRC_DST shown here as srcDst, and the
remaining tags collapsed into noAddr) falls into the default branch. -/
inductive GidAddrType
  | ipPfx
  | srcDst
  | mac
  | noAddr
deriving DecidableEq

/-- gid_address_t: a type tag over a union; both payload views are carried,
the unused one left zeroed. -/
structure GidAddress where
  gtype : GidAddrType
  ippref : IpPref
  mac : Nat
deriving DecidableEq

inductive FidAddrType
  | ipPref
  | mac
deriving DecidableEq

/-- dp_address_t (a fid_addr_t): the union again carried as both views with
the unused one zeroed, matching the memset-then-copy construction of keys. -/
structure DpAddress where
  dtype : FidAddrType
  ippref : IpPref
  mac : Nat
deriving DecidableEq

/-- fid_addr_mac: read the MAC member of the union. -/
def fid_addr_mac (d : DpAddress) : Nat := d.mac

/-- gid_to_dp_address: IP-prefix and src-dst gids copy the prefix; MAC and the
default case copy the MAC member. -/
def gid_to_dp_address (g : GidAddress) : DpAddress :=
  match g.gtype with
  | .ipPfx => { dtype := .ipPref, ippref := g.ippref, mac := 0 }
  | .srcDst => { dtype := .ipPref, ippref := g.ippref, mac := 0 }
  | _ => { dtype := .mac, ippref := defaultIpPref, mac := g.mac }

/-- lisp_gpe_fwd_entry_key_t. -/
structure FwdEntryKey where
  rmt : DpAddress
  lcl : DpAddress
  vni : Nat
deriving DecidableEq

inductive FwdEntryType
  | normal
  | negative
deriving DecidableEq

/-- negative_fwd_actions_e. -/
inductive NegAction
  | noAction
  | forwardNative
  | sendMapRequest
  | drop
deriving DecidableEq

/-- locator_pair_t from the add/del argument block. -/
structure LocatorPair where
  lcl_loc : IpAddr
  rmt_loc : IpAddr
  weight : Nat
  priority : Nat
deriving DecidableEq

/-- lisp_fwd_path_t. -/
structure LispFwdPath where
  priority : Nat
  weight : Nat
  lisp_adj : Nat
deriving DecidableEq

def defaultLispFwdPath : LispFwdPath := { priority := 0, weight := 0, lisp_adj := 0 }

/-- The fields of lisp_gpe_adjacency_t read by lisp_gpe_mk_fib_paths. -/
structure LispGpeAdjacency where
  remote_rloc : IpAddr
  sw_if_index : Nat
deriving DecidableEq

def defaultLispGpeAdjacency : LispGpeAdjacency :=
  { remote_rloc := { version := .ip4, addr := 0 }, sw_if_index := 0 }

/-- fib_route_path_t as filled by lisp_gpe_mk_fib_paths; vec_validate
zero-fills, so the default is the all-zero record. -/
structure FibRoutePath where
  frp_proto : IpVersion
  frp_addr : Nat
  frp_sw_if_index : Nat
  frp_weight : Nat
  frp_label : Nat
deriving DecidableEq

def defaultFibRoutePath : FibRoutePath :=
  { frp_proto := .ip4, frp_addr := 0, frp_sw_if_index := 0, frp_weight := 0,
    frp_label := 0 }

/-- MPLS_LABEL_INVALID (0x100000; declared outside src/, value representative). -/
def MPLS_LABEL_INVALID : Nat := 1048576

/-- The body of one iteration of the fill loop in lisp_gpe_mk_fib_paths:
ip_address_to_46 of the adjacency's remote rloc, the egress interface, the
weight with zero normalized to one, and an invalid MPLS label. -/
def mk_fib_path (adjGet : Nat → LispGpeAdjacency) (p : LispFwdPath) : FibRoutePath :=
  let ladj := adjGet p.lisp_adj
  { frp_proto := ladj.remote_rloc.version,
    frp_addr := ladj.remote_rloc.addr,
    frp_sw_if_index := ladj.sw_if_index,
    frp_weight := if p.weight ≠ 0 then p.weight else 1,
    frp_label := MPLS_LABEL_INVALID }

/-- paths[0].priority, as read by lisp_gpe_mk_fib_paths both to initialize
best_priority and inside the loop guard. -/
def headPriority : List LispFwdPath → Nat
  | [] => 0
  | p :: _ => p.priority

/-- The vec_foreach_index loop of lisp_gpe_mk_fib_paths, fuel-structured over
the number of remaining indices (the C loop runs ii = 0 .. len-1).  The break
guard is exactly the source's: it re-reads paths[0].priority and compares it
with best_priority. -/
def mk_fib_paths_fill (adjGet : Nat → LispGpeAdjacency) (paths : List LispFwdPath)
    (best : Nat) : Nat → Nat → List FibRoutePath → List FibRoutePath
  | 0, _, rpaths => rpaths
  | remaining + 1, ii, rpaths =>
      if headPriority paths ≠ best then rpaths
      else
        mk_fib_paths_fill adjGet paths best remaining (ii + 1)
          (rpaths.set ii (mk_fib_path adjGet (paths.getD ii defaultLispFwdPath)))

/-- lisp_gpe_mk_fib_paths.  vec_validate (rpaths, vec_len (paths) - 1): for an
empty input the u32 length underflows to 2^32 - 1 and the resulting allocation
aborts the process, modelled as `none`; otherwise rpaths is zero-filled at the
input's length and the fill loop runs from index 0. -/
def lisp_gpe_mk_fib_paths (adjGet : Nat → LispGpeAdjacency)
    (paths : List LispFwdPath) : Option (List FibRoutePath) :=
  if paths.length = 0 then none
  else
    some (mk_fib_paths_fill adjGet paths (headPriority paths) paths.length 0
      (List.replicate paths.length defaultFibRoutePath))

/-! ## External route-table provider (fib_table_* / fib_entry_*)

The longest-prefix-match route tables are an external collaborator (consumed,
not implemented, per the spec).  They are modelled as a family of tables
indexed by fib index, each an exact-match map from fib_prefix to the entry
installed by this subsystem under FIB_SOURCE_LISP; a per-table lock count; a
(protocol, table-id) directory for fib_table_find_or_create_and_lock; and an
index allocator. -/

/-- The dpo_id_t values this file installs as exclusive route results. -/
inductive FibDpo
  | nullDpo
  | srcLookup (src_fib_index : Nat)
  | lispCp (proto : IpVersion)
  | dropDpo (proto : IpVersion)
deriving DecidableEq

inductive FibRouteVal
  | specialDpo (d : FibDpo)
  | routePaths (ps : List FibRoutePath)
deriving DecidableEq

/-- A route entry: its forwarding value plus the opaque per-source user data
(fib_entry_set_source_data / fib_entry_get_source_data for FIB_SOURCE_LISP). -/
structure FibEntryRec where
  val : FibRouteVal
  lisp_src_data : Option Nat
deriving DecidableEq

structure FibSystem where
  tables : List (Nat × List (FibPfx × FibEntryRec))
  locks : List (Nat × Nat)
  table_by_tid : List ((IpVersion × Nat) × Nat)
  next_index : Nat
deriving DecidableEq

def fib_table_get (fs : FibSystem) (i : Nat) : List (FibPfx × FibEntryRec) :=
  (alookup fs.tables i).getD []

def fib_table_lookup_exact_match (fs : FibSystem) (i : Nat) (p : FibPfx) :
    Option FibEntryRec :=
  alookup (fib_table_get fs i) p

def fib_table_create_and_lock (fs : FibSystem) : Nat × FibSystem :=
  (fs.next_index,
   { fs with tables := aset fs.tables fs.next_index [],
             locks := aset fs.locks fs.next_index 1,
             next_index := fs.next_index + 1 })

def fib_table_entry_special_dpo_add (fs : FibSystem) (i : Nat) (p : FibPfx)
    (d : FibDpo) : FibSystem :=
  let t := aset (fib_table_get fs i) p { val := .specialDpo d, lisp_src_data := none }
  { fs with tables := aset fs.tables i t }

def fib_entry_set_source_data (fs : FibSystem) (i : Nat) (p : FibPfx)
    (v : Nat) : FibSystem :=
  match alookup (fib_table_get fs i) p with
  | none => fs
  | some r =>
      let t := aset (fib_table_get fs i) p { r with lisp_src_data := some v }
      { fs with tables := aset fs.tables i t }

def fib_table_entry_update (fs : FibSystem) (i : Nat) (p : FibPfx)
    (rpaths : List FibRoutePath) : FibSystem :=
  let t := aset (fib_table_get fs i) p { val := .routePaths rpaths, lisp_src_data := none }
  { fs with tables := aset fs.tables i t }

def fib_table_entry_delete (fs : FibSystem) (i : Nat) (p : FibPfx) : FibSystem :=
  { fs with tables := aset fs.tables i (aremove (fib_table_get fs i) p) }

/-- fib_table_get_num_entries for FIB_SOURCE_LISP: every modelled entry in
these tables was installed by this subsystem under that source. -/
def fib_table_get_num_entries (fs : FibSystem) (i : Nat) : Nat :=
  (fib_table_get fs i).length

def fib_table_entry_special_remove (fs : FibSystem) (i : Nat) (p : FibPfx) :
    FibSystem :=
  { fs with tables := aset fs.tables i (aremove (fib_table_get fs i) p) }

/-- fib_table_unlock: drop one lock; the last lock destroys the table. -/
def fib_table_unlock (fs : FibSystem) (i : Nat) : FibSystem :=
  let l := (alookup fs.locks i).getD 0
  if l ≤ 1 then
    { fs with tables := aremove fs.tables i,
              locks := aremove fs.locks i,
              table_by_tid := fs.table_by_tid.filter (fun q => q.2 ≠ i) }
  else { fs with locks := aset fs.locks i (l - 1) }

def fib_table_find_or_create_and_lock (fs : FibSystem) (proto : IpVersion)
    (tid : Nat) : Nat × FibSystem :=
  match alookup fs.table_by_tid (proto, tid) with
  | some i => (i, { fs with locks := aset fs.locks i ((alookup fs.locks i).getD 0 + 1) })
  | none =>
      (fs.next_index,
       { fs with tables := aset fs.tables fs.next_index [],
                 locks := aset fs.locks fs.next_index 1,
                 table_by_tid := aset fs.table_by_tid (proto, tid) fs.next_index,
                 next_index := fs.next_index + 1 })

/-! ## Destination/source route manager -/

/-- ip_dst_fib_add_route: look up the destination prefix; if absent or not yet
carrying LISP source data, create and lock a fresh source fib, install the
source-address lookup dpo as the destination route, and record the source fib
index as source data; otherwise return the recorded source fib index. -/
def ip_dst_fib_add_route (fs : FibSystem) (dst_fib_index : Nat)
    (dst_pfx : IpPref) : Nat × FibSystem :=
  let dst_fib_pfx := ip_pfx_to_fib_pfx dst_pfx
  let dst_fei := fib_table_lookup_exact_match fs dst_fib_index dst_fib_pfx
  match dst_fei with
  | some r =>
      match r.lisp_src_data with
      | some sfi => (sfi, fs)
      | none =>
          let c := fib_table_create_and_lock fs
          let fs2 := fib_table_entry_special_dpo_add c.2 dst_fib_index dst_fib_pfx
            (.srcLookup c.1)
          (c.1, fib_entry_set_source_data fs2 dst_fib_index dst_fib_pfx c.1)
  | none =>
      let c := fib_table_create_and_lock fs
      let fs2 := fib_table_entry_special_dpo_add c.2 dst_fib_index dst_fib_pfx
        (.srcLookup c.1)
      (c.1, fib_entry_set_source_data fs2 dst_fib_index dst_fib_pfx c.1)

/-- ip_src_dst_fib_del_route: delete the source-table route; if no LISP entry
remains in the source fib, also remove the destination redirect route and
unlock (release) the source fib. -/
def ip_src_dst_fib_del_route (fs : FibSystem) (src_fib_index : Nat)
    (src_pfx : IpPref) (dst_fib_index : Nat) (dst_pfx : IpPref) : FibSystem :=
  let dst_fib_pfx := ip_pfx_to_fib_pfx dst_pfx
  let src_fib_pfx := ip_pfx_to_fib_pfx src_pfx
  let fs1 := fib_table_entry_delete fs src_fib_index src_fib_pfx
  if fib_table_get_num_entries fs1 src_fib_index = 0 then
    fib_table_unlock
      (fib_table_entry_special_remove fs1 dst_fib_index dst_fib_pfx)
      src_fib_index
  else fs1

/-- ip_src_fib_add_route_w_dpo: install the dpo route in the source fib unless
an entry is already present there (present modelled entries are LISP-sourced). -/
def ip_src_fib_add_route_w_dpo (fs : FibSystem) (src_fib_index : Nat)
    (src_pfx : IpPref) (d : FibDpo) : FibSystem :=
  let src_fib_pfx := ip_pfx_to_fib_pfx src_pfx
  match fib_table_lookup_exact_match fs src_fib_index src_fib_pfx with
  | some _ => fs
  | none => fib_table_entry_special_dpo_add fs src_fib_index src_fib_pfx d

/-- ip_src_fib_add_route: materialize the route paths and update the source
fib entry (fatal when the paths vector is empty, propagated from
lisp_gpe_mk_fib_paths). -/
def ip_src_fib_add_route (adjGet : Nat → LispGpeAdjacency) (fs : FibSystem)
    (src_fib_index : Nat) (src_pfx : IpPref) (paths : List LispFwdPath) :
    Option FibSystem :=
  let src_fib_pfx := ip_pfx_to_fib_pfx src_pfx
  match lisp_gpe_mk_fib_paths adjGet paths with
  | none => none
  | some rpaths => some (fib_table_entry_update fs src_fib_index src_fib_pfx rpaths)

/-! ## Adjacency provider, tenants, path lists, dpos

These collaborators live in files of this repository that are not under src/
(lisp_gpe_adjacency.c, lisp_gpe_tenant.c, fib_path_list.c, the dpo modules);
they are modelled from the spec as stated on each definition. -/

/-- Modelled from the spec: adjacency find-or-create-and-lock semantics, keyed
by endpoint (locator pair) + table + tenant (lisp_gpe_adjacency.c is not under
src/).  Creation allocates a fresh index and records the remote rloc; the
tunnel interface index is represented by the adjacency index. -/
structure AdjStore where
  index_by_key : List ((LocatorPair × Nat × Nat) × Nat)
  recs : List (Nat × LispGpeAdjacency)
  locks : List (Nat × Nat)
  next_index : Nat
deriving DecidableEq

def lisp_gpe_adjacency_find_or_create_and_lock (st : AdjStore)
    (pair : LocatorPair) (table_id vni : Nat) : Nat × AdjStore :=
  match alookup st.index_by_key (pair, table_id, vni) with
  | some idx =>
      (idx, { st with locks := aset st.locks idx ((alookup st.locks idx).getD 0 + 1) })
  | none =>
      (st.next_index,
       { index_by_key := aset st.index_by_key (pair, table_id, vni) st.next_index,
         recs := aset st.recs st.next_index
           { remote_rloc := pair.rmt_loc, sw_if_index := st.next_index },
         locks := aset st.locks st.next_index 1,
         next_index := st.next_index + 1 })

/-- Modelled from the spec: releasing the last lock destroys the adjacency. -/
def lisp_gpe_adjacency_unlock (st : AdjStore) (i : Nat) : AdjStore :=
  let l := (alookup st.locks i).getD 0
  if l ≤ 1 then
    { st with locks := aremove st.locks i, recs := aremove st.recs i,
              index_by_key := st.index_by_key.filter (fun q => q.2 ≠ i) }
  else { st with locks := aset st.locks i (l - 1) }

/-- lisp_gpe_adjacency_get. -/
def adjGetOf (st : AdjStore) : Nat → LispGpeAdjacency :=
  fun i => (alookup st.recs i).getD defaultLispGpeAdjacency

/-- Modelled from the spec: tenants are ref-counted and created lazily per
distinct VNI (lisp_gpe_tenant.c is not under src/).  The tenant handle is
represented by its VNI; the map carries reference counts. -/
def lisp_gpe_tenant_find_or_create (tenants : List (Nat × Nat)) (vni : Nat) :
    Nat × List (Nat × Nat) :=
  (vni, aset tenants vni ((alookup tenants vni).getD 0 + 1))

/-- Modelled from the spec: the tenant record's route-table id (its value only
keys adjacency identity in this development). -/
def lisp_gpe_tenant_table_id (tenant : Nat) : Nat := tenant

/-- Resolved forwarding actions a dpo handle can denote. -/
inductive DpoAction
  | dropAct
  | puntCp
  | forwardPaths (ps : List FibRoutePath)
deriving DecidableEq

/-- Modelled from the spec: the shared, ref-counted path-list aggregation
(fib_path_list.c is not under src/): a registry of path sets with per-list
child registration counts. -/
structure PathListSys where
  lists : List (Nat × List FibRoutePath)
  child_counts : List (Nat × Nat)
  next_index : Nat
deriving DecidableEq

def fib_path_list_create (pls : PathListSys) (rpaths : List FibRoutePath) :
    Nat × PathListSys :=
  (pls.next_index,
   { lists := aset pls.lists pls.next_index rpaths,
     child_counts := aset pls.child_counts pls.next_index 0,
     next_index := pls.next_index + 1 })

def fib_path_list_child_add (pls : PathListSys) (pl : Nat) : Nat × PathListSys :=
  let c := (alookup pls.child_counts pl).getD 0
  (c, { pls with child_counts := aset pls.child_counts pl (c + 1) })

def fib_path_list_child_remove (pls : PathListSys) (pl : Nat) : PathListSys :=
  let c := (alookup pls.child_counts pl).getD 0
  { pls with child_counts := aset pls.child_counts pl (c - 1) }

/-! ## Forwarding-entry store and the whole-process state -/

/-- lisp_gpe_fwd_entry_t (the IP and L2 members of the union both carried;
pool_get + memset gives the all-zero default). -/
structure LispGpeFwdEntry where
  key : FwdEntryKey
  etype : FwdEntryType
  tenant : Nat
  eid_table_id : Nat
  eid_fib_index : Nat
  src_fib_index : Nat
  action : NegAction
  paths : List LispFwdPath
  l2_eid_bd_id : Nat
  l2_eid_bd_index : Nat
  l2_path_list_index : Nat
  l2_child_index : Nat
  l2_dpo : Nat
deriving DecidableEq

def defaultFwdEntryKey : FwdEntryKey :=
  { rmt := { dtype := .ipPref, ippref := defaultIpPref, mac := 0 },
    lcl := { dtype := .ipPref, ippref := defaultIpPref, mac := 0 },
    vni := 0 }

def defaultLispGpeFwdEntry : LispGpeFwdEntry :=
  { key := defaultFwdEntryKey, etype := .normal, tenant := 0, eid_table_id := 0,
    eid_fib_index := 0, src_fib_index := 0, action := .noAction, paths := [],
    l2_eid_bd_id := 0, l2_eid_bd_index := 0, l2_path_list_index := 0,
    l2_child_index := 0, l2_dpo := 0 }

/-- lisp_gpe_main_t together with the collaborator state the core mutates:
the entry store (hash + pool), the L2 bihash, the route tables, tenants,
adjacencies, path lists, a dpo registry resolving dpo indices to actions, the
configured L2 miss handle, the bridge-domain directory and the feature
enable flag. -/
structure LispState where
  entries : List (FwdEntryKey × LispGpeFwdEntry)
  l2_fib : List ((Nat × Nat) × Nat)
  fibs : FibSystem
  tenants : List (Nat × Nat)
  adj_store : AdjStore
  path_lists : PathListSys
  dpos : List (Nat × DpoAction)
  next_dpo : Nat
  l2_lb_cp_lkup : Nat
  bd_index_by_bd_id : List (Nat × Nat)
  lisp_enabled : Bool
deriving DecidableEq

/-- vnet_lisp_gpe_add_del_fwd_entry_args_t. -/
structure AddDelArgs where
  is_add : Bool
  is_negative : Bool
  vni : Nat
  table_id : Nat
  rmt_eid : GidAddress
  lcl_eid : GidAddress
  locator_pairs : List LocatorPair
  bd_id : Nat
  action : NegAction
deriving DecidableEq

/-- Error codes (numeric values live in headers outside src/; the values are
representative, only their distinctness is relied upon). -/
def VNET_API_ERROR_INVALID_VALUE : Int := -159

def VNET_API_ERROR_LISP_DISABLED : Int := -110

/-- The outcome of a control-plane operation: success, a caller error code, or
a fatal abort (assertion / invalid allocation) — each carrying the state as it
stands at that point. -/
inductive AddOutcome
  | ok (s : LispState)
  | err (code : Int) (s : LispState)
  | fatal (s : LispState)
deriving DecidableEq

def AddOutcome.stateOf : AddOutcome → LispState
  | .ok s => s
  | .err _ s => s
  | .fatal s => s

def AddOutcome.isOk : AddOutcome → Bool
  | .ok _ => true
  | _ => false

def AddOutcome.isErr : AddOutcome → Bool
  | .err _ _ => true
  | _ => false

def AddOutcome.isFatal : AddOutcome → Bool
  | .fatal _ => true
  | _ => false

/-- The key construction of find_fwd_entry: when the remote eid is an IP
prefix the local eid's ip version is forced to the remote's (the all-zero
"any" source must not stay family-ambiguous), then both eids are converted to
dp addresses. -/
def find_fwd_entry_key (a : AddDelArgs) : FwdEntryKey :=
  let lcl_eid :=
    if a.rmt_eid.gtype = .ipPfx then
      { a.lcl_eid with ippref := { a.lcl_eid.ippref with version := a.rmt_eid.ippref.version } }
    else a.lcl_eid
  { rmt := gid_to_dp_address a.rmt_eid, lcl := gid_to_dp_address lcl_eid,
    vni := a.vni }

/-- find_fwd_entry: build the key and look it up in the entry hash. -/
def find_fwd_entry (s : LispState) (a : AddDelArgs) :
    Option LispGpeFwdEntry × FwdEntryKey :=
  let key := find_fwd_entry_key a
  (alookup s.entries key, key)

/-- The loop of lisp_gpe_fwd_entry_mk_paths: one path per locator pair, with
its adjacency found-or-created-and-locked. -/
def mk_paths_loop (ltid vni : Nat) : AdjStore → List LocatorPair →
    List LispFwdPath × AdjStore
  | st, [] => ([], st)
  | st, lp :: rest =>
      let r := lisp_gpe_adjacency_find_or_create_and_lock st lp ltid vni
      let rec' := mk_paths_loop ltid vni r.2 rest
      ({ priority := lp.priority, weight := lp.weight, lisp_adj := r.1 } :: rec'.1,
       rec'.2)

/-- Insertion for the ascending-priority sort (vec_sort_with_function with the
priority-difference comparator; ties in arbitrary order). -/
def insertByPriority (p : LispFwdPath) : List LispFwdPath → List LispFwdPath
  | [] => [p]
  | q :: rest =>
      if p.priority ≤ q.priority then p :: q :: rest else q :: insertByPriority p rest

def sortByPriority (ps : List LispFwdPath) : List LispFwdPath :=
  ps.foldr insertByPriority []

/-- lisp_gpe_fwd_entry_mk_paths: vec_validate (lfe->paths,
vec_len (a->locator_pairs) - 1) underflows for an empty locator list and the
resulting allocation aborts (`none`); otherwise each pair is resolved to an
adjacency and the path vector is sorted ascending by priority. -/
def lisp_gpe_fwd_entry_mk_paths (st : AdjStore) (ltid vni : Nat)
    (locator_pairs : List LocatorPair) : Option (List LispFwdPath × AdjStore) :=
  if locator_pairs.length = 0 then none
  else
    let r := mk_paths_loop ltid vni st locator_pairs
    some (sortByPriority r.1, r.2)

/-- create_fib_entries: ensure the destination route and its source fib, then
install the source route — a fixed dpo chosen by the negative action for
negative entries, the materialized path set otherwise. -/
def create_fib_entries (adjGet : Nat → LispGpeAdjacency) (fs : FibSystem)
    (lfe : LispGpeFwdEntry) : Option (FibSystem × LispGpeFwdEntry) :=
  let dproto := lfe.key.rmt.ippref.version
  let r := ip_dst_fib_add_route fs lfe.eid_fib_index lfe.key.rmt.ippref
  let lfe1 := { lfe with src_fib_index := r.1 }
  if lfe1.etype = .negative then
    let d : FibDpo :=
      match lfe1.action with
      | .noAction => .lispCp dproto
      | .forwardNative => .lispCp dproto
      | .sendMapRequest => .lispCp dproto
      | .drop => .dropDpo dproto
    some (ip_src_fib_add_route_w_dpo r.2 lfe1.src_fib_index lfe1.key.lcl.ippref d,
          lfe1)
  else
    match ip_src_fib_add_route adjGet r.2 lfe1.src_fib_index lfe1.key.lcl.ippref
        lfe1.paths with
    | none => none
    | some fs2 => some (fs2, lfe1)

/-- add_ip_fwd_entry.  The duplicate check precedes every mutation; after it,
the C allocates the pool slot, copies the key and inserts it into the hash
*before* resolving the tenant, the destination table and the paths — the store
binding is kept in sync with the slot's in-place field assignments, so each
exit point carries the fields written up to that point.  An empty locator list
on a non-negative entry aborts fatally inside lisp_gpe_fwd_entry_mk_paths. -/
def add_ip_fwd_entry (s : LispState) (a : AddDelArgs) : AddOutcome :=
  let fk := find_fwd_entry s a
  match fk.1 with
  | some _ => .err VNET_API_ERROR_INVALID_VALUE s
  | none =>
    let key := fk.2
    let fproto := key.rmt.ippref.version
    let lfe0 := { defaultLispGpeFwdEntry with key := key }
    let lfe1 :=
      { lfe0 with etype := if a.is_negative then FwdEntryType.negative else .normal }
    let tr := lisp_gpe_tenant_find_or_create s.tenants key.vni
    let lfe2 := { lfe1 with tenant := tr.1, eid_table_id := a.table_id }
    let fr := fib_table_find_or_create_and_lock s.fibs fproto a.table_id
    let lfe3 := { lfe2 with eid_fib_index := fr.1 }
    let s2 := { s with entries := aset s.entries key lfe3, tenants := tr.2,
                       fibs := fr.2 }
    if lfe3.etype ≠ .negative then
      match lisp_gpe_fwd_entry_mk_paths s2.adj_store
          (lisp_gpe_tenant_table_id lfe3.tenant) key.vni a.locator_pairs with
      | none => .fatal s2
      | some pr =>
          let lfe4 := { lfe3 with paths := pr.1 }
          let s3 := { s2 with adj_store := pr.2, entries := aset s2.entries key lfe4 }
          match create_fib_entries (adjGetOf s3.adj_store) s3.fibs lfe4 with
          | none => .fatal s3
          | some cr =>
              .ok { s3 with fibs := cr.1, entries := aset s3.entries key cr.2 }
    else
      match create_fib_entries (adjGetOf s2.adj_store) s2.fibs lfe3 with
      | none => .fatal s2
      | some cr => .ok { s2 with fibs := cr.1, entries := aset s2.entries key cr.2 }

/-- del_ip_fwd_entry_i: unlock every path adjacency, withdraw the
source/destination routes, unlock the destination table and remove the entry
from hash and pool. -/
def del_ip_fwd_entry_i (s : LispState) (lfe : LispGpeFwdEntry) : LispState :=
  let adjs := lfe.paths.foldl (fun st p => lisp_gpe_adjacency_unlock st p.lisp_adj)
    s.adj_store
  let fibs1 := ip_src_dst_fib_del_route s.fibs lfe.src_fib_index lfe.key.lcl.ippref
    lfe.eid_fib_index lfe.key.rmt.ippref
  let fibs2 := fib_table_unlock fibs1 lfe.eid_fib_index
  { s with adj_store := adjs, fibs := fibs2, entries := aremove s.entries lfe.key }

def del_ip_fwd_entry (s : LispState) (a : AddDelArgs) : AddOutcome :=
  match (find_fwd_entry s a).1 with
  | none => .err VNET_API_ERROR_INVALID_VALUE s
  | some lfe => .ok (del_ip_fwd_entry_i s lfe)

/-! ## L2 table -/

/-- make_mac_fib_key: key[0] = bd_index << 48 | dst_mac, key[1] = src_mac
(bd_index is a u16, MACs are 48-bit). -/
def make_mac_fib_key (bd_index src_mac dst_mac : Nat) : Nat × Nat :=
  ((bd_index % 65536) * 281474976710656 + dst_mac % 281474976710656,
   src_mac % 281474976710656)

/-- lisp_l2_fib_lookup, exactly as the source's control flow runs: the first
(vni + dest + source) search's hit falls through to the final miss return with
its value discarded; only the zero-source retry returns the stored value. -/
def lisp_l2_fib_lookup (s : LispState) (bd_index src_mac dst_mac : Nat) : Nat :=
  let kv := make_mac_fib_key bd_index src_mac dst_mac
  match alookup s.l2_fib kv with
  | some _value => s.l2_lb_cp_lkup
  | none =>
      match alookup s.l2_fib (kv.1, 0) with
      | some value => value
      | none => s.l2_lb_cp_lkup

/-- lisp_l2_fib_add_del_entry: returns the previous value (~0 when absent) and
the mutated table. -/
def lisp_l2_fib_add_del_entry (l2 : List ((Nat × Nat) × Nat))
    (bd_index src_mac dst_mac dpoi : Nat) (is_add : Bool) :
    List ((Nat × Nat) × Nat) × Nat :=
  let kv := make_mac_fib_key bd_index src_mac dst_mac
  let old := (alookup l2 kv).getD 4294967295
  if is_add then (aset l2 kv dpoi, old) else (aremove l2 kv, old)

/-- Modelled from the spec: fib_path_list_contribute_forwarding (fib_path_list.c
is not under src/) materializes a load-balance over the path set, here a fresh
dpo index resolving to forwarding over the list's paths. -/
def fib_path_list_contribute_forwarding (s : LispState) (pl : Nat) :
    Nat × LispState :=
  let ps := (alookup s.path_lists.lists pl).getD []
  (s.next_dpo,
   { s with dpos := aset s.dpos s.next_dpo (DpoAction.forwardPaths ps),
            next_dpo := s.next_dpo + 1 })

/-- lisp_gpe_l2_update_fwding: non-negative entries publish the path list's
contributed forwarding; negative entries publish the configured
control-plane-lookup load-balance (l2_lb_cp_lkup) regardless of their
negative action.  Either dpo index is inserted into the L2 fib keyed by
(bd, dst = remote mac, src = local mac). -/
def lisp_gpe_l2_update_fwding (s : LispState) (lfe : LispGpeFwdEntry) :
    LispState × LispGpeFwdEntry :=
  if lfe.etype ≠ .negative then
    let cr := fib_path_list_contribute_forwarding s lfe.l2_path_list_index
    let lfe1 := { lfe with l2_dpo := cr.1 }
    let ar := lisp_l2_fib_add_del_entry cr.2.l2_fib lfe1.l2_eid_bd_index
      (fid_addr_mac lfe1.key.lcl) (fid_addr_mac lfe1.key.rmt) cr.1 true
    ({ cr.2 with l2_fib := ar.1 }, lfe1)
  else
    let ar := lisp_l2_fib_add_del_entry s.l2_fib lfe.l2_eid_bd_index
      (fid_addr_mac lfe.key.lcl) (fid_addr_mac lfe.key.rmt) s.l2_lb_cp_lkup true
    ({ s with l2_fib := ar.1 }, lfe)

/-- add_l2_fwd_entry: unknown bridge domain aborts first (-1), then the
duplicate check; non-negative entries build sorted paths, materialize the
route-path set, create/share a path list and register as its child; negative
entries record the action.  Both finish by publishing into the L2 fib. -/
def add_l2_fwd_entry (s : LispState) (a : AddDelArgs) : AddOutcome :=
  match alookup s.bd_index_by_bd_id a.bd_id with
  | none => .err (-1) s
  | some bd_index =>
    let fk := find_fwd_entry s a
    match fk.1 with
    | some _ => .err VNET_API_ERROR_INVALID_VALUE s
    | none =>
      let key := fk.2
      let lfe0 := { defaultLispGpeFwdEntry with key := key }
      let lfe1 :=
        { lfe0 with etype := if a.is_negative then FwdEntryType.negative else .normal,
                    l2_eid_bd_id := a.bd_id, l2_eid_bd_index := bd_index }
      let tr := lisp_gpe_tenant_find_or_create s.tenants key.vni
      let lfe2 := { lfe1 with tenant := tr.1 }
      let s2 := { s with entries := aset s.entries key lfe2, tenants := tr.2 }
      if lfe2.etype ≠ .negative then
        match lisp_gpe_fwd_entry_mk_paths s2.adj_store
            (lisp_gpe_tenant_table_id lfe2.tenant) key.vni a.locator_pairs with
        | none => .fatal s2
        | some pr =>
            let lfe3 := { lfe2 with paths := pr.1 }
            let s3 := { s2 with adj_store := pr.2, entries := aset s2.entries key lfe3 }
            match lisp_gpe_mk_fib_paths (adjGetOf s3.adj_store) lfe3.paths with
            | none => .fatal s3
            | some rpaths =>
                let plr := fib_path_list_create s3.path_lists rpaths
                let lfe4 := { lfe3 with l2_path_list_index := plr.1 }
                let chr := fib_path_list_child_add plr.2 lfe4.l2_path_list_index
                let lfe5 := { lfe4 with l2_child_index := chr.1 }
                let s4 := { s3 with path_lists := chr.2,
                                    entries := aset s3.entries key lfe5 }
                let ur := lisp_gpe_l2_update_fwding s4 lfe5
                .ok { ur.1 with entries := aset ur.1.entries key ur.2 }
      else
        let lfe3 := { lfe2 with action := a.action }
        let s3 := { s2 with entries := aset s2.entries key lfe3 }
        let ur := lisp_gpe_l2_update_fwding s3 lfe3
        .ok { ur.1 with entries := aset ur.1.entries key ur.2 }

/-- del_l2_fwd_entry_i. -/
def del_l2_fwd_entry_i (s : LispState) (lfe : LispGpeFwdEntry) : LispState :=
  let s1 :=
    if lfe.etype ≠ .negative then
      let adjs := lfe.paths.foldl (fun st p => lisp_gpe_adjacency_unlock st p.lisp_adj)
        s.adj_store
      { s with adj_store := adjs,
               path_lists := fib_path_list_child_remove s.path_lists lfe.l2_path_list_index }
    else s
  let ar := lisp_l2_fib_add_del_entry s1.l2_fib lfe.l2_eid_bd_index
    (fid_addr_mac lfe.key.lcl) (fid_addr_mac lfe.key.rmt) 0 false
  { s1 with l2_fib := ar.1, entries := aremove s1.entries lfe.key }

def del_l2_fwd_entry (s : LispState) (a : AddDelArgs) : AddOutcome :=
  match (find_fwd_entry s a).1 with
  | none => .err VNET_API_ERROR_INVALID_VALUE s
  | some lfe => .ok (del_l2_fwd_entry_i s lfe)

/-- vnet_lisp_gpe_add_del_fwd_entry: the public dispatcher — feature gate,
then dispatch on the remote eid's type; any type other than IP prefix or MAC
hits the default branch and returns -1 untouched state. -/
def vnet_lisp_gpe_add_del_fwd_entry (s : LispState) (a : AddDelArgs) : AddOutcome :=
  if s.lisp_enabled = false then .err VNET_API_ERROR_LISP_DISABLED s
  else
    match a.rmt_eid.gtype with
    | .ipPfx => if a.is_add then add_ip_fwd_entry s a else del_ip_fwd_entry s a
    | .mac => if a.is_add then add_l2_fwd_entry s a else del_l2_fwd_entry s a
    | _ => .err (-1) s

/-! ## Concrete states and inputs used to evaluate the model -/

def emptyFibSystem : FibSystem :=
  { tables := [], locks := [], table_by_tid := [], next_index := 1 }

def emptyAdjStore : AdjStore :=
  { index_by_key := [], recs := [], locks := [], next_index := 1 }

def emptyPathListSys : PathListSys :=
  { lists := [], child_counts := [], next_index := 1 }

/-- The state right after l2_fib_init: the L2 miss result is a load-balance
whose single bucket is the LISP control-plane lookup dpo (dpo index 0 here),
recorded as l2_lb_cp_lkup; everything else empty, the feature enabled. -/
def baseLispState : LispState :=
  { entries := [], l2_fib := [], fibs := emptyFibSystem, tenants := [],
    adj_store := emptyAdjStore, path_lists := emptyPathListSys,
    dpos := [(0, DpoAction.puntCp)], next_dpo := 1, l2_lb_cp_lkup := 0,
    bd_index_by_bd_id := [], lisp_enabled := true }

/-- Three adjacencies with distinct rlocs and interfaces. -/
def c1_adjGet : Nat → LispGpeAdjacency := fun i =>
  if i = 1 then { remote_rloc := { version := .ip4, addr := 101 }, sw_if_index := 11 }
  else if i = 2 then { remote_rloc := { version := .ip4, addr := 102 }, sw_if_index := 22 }
  else { remote_rloc := { version := .ip4, addr := 103 }, sw_if_index := 33 }

/-- A path vector sorted ascending by priority: two best-priority (10) paths
and one standby priority-20 path. -/
def c1_paths : List LispFwdPath :=
  [ { priority := 10, weight := 0, lisp_adj := 1 },
    { priority := 10, weight := 0, lisp_adj := 2 },
    { priority := 20, weight := 0, lisp_adj := 3 } ]

/-- L2 table holding one fully-qualified entry: bd 1, dst MAC 6, src MAC 5,
stored result 7. -/
def c2_s : LispState :=
  { baseLispState with l2_fib := [(make_mac_fib_key 1 5 6, 7)] }

/-- L2 table holding only the dest-only fallback entry: bd 1, dst MAC 6,
zero src, stored result 7. -/
def c2b_s : LispState :=
  { baseLispState with l2_fib := [(make_mac_fib_key 1 0 6, 7)] }

def c4_a : AddDelArgs :=
  { is_add := true, is_negative := false, vni := 5, table_id := 0,
    rmt_eid := { gtype := .ipPfx,
                 ippref := { version := .ip4, addr := 167772160, len := 24 },
                 mac := 0 },
    lcl_eid := { gtype := .ipPfx, ippref := defaultIpPref, mac := 0 },
    locator_pairs := [], bd_id := 0, action := .noAction }

def c5_s : LispState :=
  { baseLispState with bd_index_by_bd_id := [(7, 3)] }

def c5_a : AddDelArgs :=
  { is_add := true, is_negative := true, vni := 9, table_id := 0,
    rmt_eid := { gtype := .mac, ippref := defaultIpPref, mac := 2 },
    lcl_eid := { gtype := .mac, ippref := defaultIpPref, mac := 1 },
    locator_pairs := [], bd_id := 7, action := .drop }

def c7_a : AddDelArgs :=
  { is_add := true, is_negative := true, vni := 4, table_id := 0,
    rmt_eid := { gtype := .mac, ippref := defaultIpPref, mac := 12 },
    lcl_eid := { gtype := .mac, ippref := defaultIpPref, mac := 34 },
    locator_pairs := [], bd_id := 5, action := .drop }

def c7_key : FwdEntryKey := find_fwd_entry_key c7_a

/-- A state whose store already holds c7_a's key while the named bridge
domain is absent from the directory. -/
def c7_s : LispState :=
  { baseLispState with
      entries := [(c7_key, { defaultLispGpeFwdEntry with key := c7_key })] }

/-- Same duplicate store, but with the bridge domain present. -/
def c7w_s : LispState :=
  { baseLispState with
      entries := [(c7_key, { defaultLispGpeFwdEntry with key := c7_key })],
      bd_index_by_bd_id := [(5, 2)] }

def c6_srcP : IpPref := { version := .ip4, addr := 11, len := 32 }

def c6_dstP : IpPref := { version := .ip4, addr := 22, len := 32 }

/-- A fib system with destination table 0 holding the redirect route for
c6_dstP (source data = source fib 1) and private source fib 1, locked once,
holding a single source route for c6_srcP. -/
def c6_fs : FibSystem :=
  { tables := [ (0, [ (ip_pfx_to_fib_pfx c6_dstP,
                       { val := .specialDpo (.srcLookup 1), lisp_src_data := some 1 }) ]),
                (1, [ (ip_pfx_to_fib_pfx c6_srcP,
                       { val := .specialDpo (.dropDpo .ip4), lisp_src_data := none }) ]) ],
    locks := [(0, 1), (1, 1)], table_by_tid := [((.ip4, 0), 0)], next_index := 2 }

def c3_adjGet : Nat → IpAdjacency := fun _ =>
  { rewrite_header := { data_bytes := 18, max_l3_packet_bytes := 100,
                        sw_if_index := 4, next_index := 2 } }

/-- A two-packet batch: the first oversized (150 > 100), the second within
the MTU (80 ≤ 100). -/
def c3_ps : List VlibBuffer :=
  [ { current_data := 50, current_length := 150, chain_rest_length := 0,
      error := 0, tx_sw_if_index := 9, tx_adj_index := 1 },
    { current_data := 50, current_length := 80, chain_rest_length := 0,
      error := 0, tx_sw_if_index := 9, tx_adj_index := 1 } ]

def c9_p : VlibBuffer :=
  { current_data := 50, current_length := 150, chain_rest_length := 0,
    error := 0, tx_sw_if_index := 9, tx_adj_index := 1 }

def c8_adjGet : Nat → LispGpeAdjacency := fun i =>
  { remote_rloc := { version := .ip4, addr := 200 + i }, sw_if_index := 40 + i }

def c8_paths : List LispFwdPath :=
  [ { priority := 10, weight := 0, lisp_adj := 1 },
    { priority := 20, weight := 3, lisp_adj := 2 } ]

def c10_a : AddDelArgs :=
  { is_add := true, is_negative := false, vni := 1, table_id := 0,
    rmt_eid := { gtype := .srcDst,
                 ippref := { version := .ip4, addr := 1, len := 32 }, mac := 0 },
    lcl_eid := { gtype := .ipPfx, ippref := defaultIpPref, mac := 0 },
    locator_pairs := [], bd_id := 0, action := .noAction }

def c5w_a : AddDelArgs :=
  { is_add := true, is_negative := true, vni := 9, table_id := 0,
    rmt_eid := { gtype := .mac, ippref := defaultIpPref, mac := 21 },
    lcl_eid := { gtype := .mac, ippref := defaultIpPref, mac := 20 },
    locator_pairs := [ { lcl_loc := { version := .ip4, addr := 1 },
                         rmt_loc := { version := .ip4, addr := 2 },
                         weight := 0, priority := 1 } ],
    bd_id := 7, action := .sendMapRequest }

def c4w_a : AddDelArgs :=
  { is_add := true, is_negative := false, vni := 6, table_id := 2,
    rmt_eid := { gtype := .ipPfx,
                 ippref := { version := .ip6, addr := 77, len := 64 }, mac := 0 },
    lcl_eid := { gtype := .ipPfx, ippref := defaultIpPref, mac := 0 },
    locator_pairs := [], bd_id := 0, action := .noAction }

/-! ## Helper lemmas -/

theorem alookup_aset_self {κ α : Type} [DecidableEq κ] (l : List (κ × α)) (k : κ)
    (v : α) : alookup (aset l k v) k = some v := by
  induction l with
  | nil => simp [aset, alookup]
  | cons h t ih =>
      by_cases hk : h.1 = k
      · simp [aset, hk, alookup]
      · simpa [aset, hk, alookup] using ih

theorem alookup_aset_ne {κ α : Type} [DecidableEq κ] (l : List (κ × α)) (k k2 : κ)
    (v : α) (h : k ≠ k2) : alookup (aset l k v) k2 = alookup l k2 := by
  induction l with
  | nil => simp [aset, alookup, h]
  | cons p t ih =>
      by_cases hk : p.1 = k
      · simp [aset, hk, alookup, h]
      · simp [aset, hk, alookup, ih]

theorem alookup_aremove_self {κ α : Type} [DecidableEq κ] (l : List (κ × α))
    (k : κ) : alookup (aremove l k) k = none := by
  induction l with
  | nil => simp [aremove, alookup]
  | cons p t ih =>
      by_cases hk : p.1 = k
      · simpa [aremove, hk] using ih
      · simp [aremove, hk, alookup, ih]

theorem alookup_aremove_ne {κ α : Type} [DecidableEq κ] (l : List (κ × α))
    (k k2 : κ) (h : k ≠ k2) : alookup (aremove l k) k2 = alookup l k2 := by
  induction l with
  | nil => simp [aremove]
  | cons p t ih =>
      by_cases hk : p.1 = k
      · have hk2 : p.1 ≠ k2 := by rw [hk]; exact h
        simp [aremove, hk, alookup, hk2, ih, h]
      · simp [aremove, hk, alookup, ih]

theorem getD_set_self {α : Type} (l : List α) (i : Nat) (v d : α)
    (h : i < l.length) : (l.set i v).getD i d = v := by
  induction l generalizing i with
  | nil => simp at h
  | cons x t ih =>
      cases i with
      | zero => simp
      | succ n =>
          simp only [List.set, List.getD_cons_succ]
          exact ih n (by simpa using h)

theorem getD_set_ne {α : Type} (l : List α) (i j : Nat) (v d : α)
    (h : i ≠ j) : (l.set i v).getD j d = l.getD j d := by
  induction l generalizing i j with
  | nil => simp [List.set]
  | cons x t ih =>
      cases i with
      | zero =>
          cases j with
          | zero => exact absurd rfl h
          | succ m => simp
      | succ n =>
          cases j with
          | zero => simp
          | succ m =>
              simp only [List.set, List.getD_cons_succ]
              exact ih n m (by omega)

theorem getD_replicate {α : Type} (n i : Nat) (a d : α) (h : i < n) :
    (List.replicate n a).getD i d = a := by
  induction n generalizing i with
  | zero => omega
  | succ m ih =>
      cases i with
      | zero => simp [List.replicate]
      | succ k =>
          simp only [List.replicate, List.getD_cons_succ]
          exact ih k (by omega)

theorem counterGet_counterAdd_self (cs : List (Nat × Nat)) (i v : Nat) :
    counterGet (counterAdd cs i v) i = counterGet cs i + v := by
  simp [counterGet, counterAdd, alookup_aset_self]

theorem mk_fib_paths_fill_zero (adjGet : Nat → LispGpeAdjacency)
    (paths : List LispFwdPath) (best ii : Nat) (rp : List FibRoutePath) :
    mk_fib_paths_fill adjGet paths best 0 ii rp = rp := rfl

theorem mk_fib_paths_fill_succ (adjGet : Nat → LispGpeAdjacency)
    (paths : List LispFwdPath) (best m ii : Nat) (rp : List FibRoutePath) :
    mk_fib_paths_fill adjGet paths best (m + 1) ii rp =
      if headPriority paths ≠ best then rp
      else
        mk_fib_paths_fill adjGet paths best m (ii + 1)
          (rp.set ii (mk_fib_path adjGet (paths.getD ii defaultLispFwdPath))) := rfl

theorem mk_fib_paths_fill_length (adjGet : Nat → LispGpeAdjacency)
    (paths : List LispFwdPath) (best : Nat) :
    ∀ remaining ii rp,
      (mk_fib_paths_fill adjGet paths best remaining ii rp).length = rp.length := by
  intro remaining
  induction remaining with
  | zero => intro ii rp; rw [mk_fib_paths_fill_zero]
  | succ m ih =>
      intro ii rp
      rw [mk_fib_paths_fill_succ]
      by_cases hb : headPriority paths ≠ best
      · rw [if_pos hb]
      · rw [if_neg hb, ih, List.length_set]

theorem mk_fib_paths_fill_getD (adjGet : Nat → LispGpeAdjacency)
    (paths : List LispFwdPath) :
    ∀ remaining ii rp j,
      rp.length = paths.length →
      remaining + ii = paths.length →
      j < paths.length →
      (mk_fib_paths_fill adjGet paths (headPriority paths) remaining ii rp).getD j
          defaultFibRoutePath =
        if j < ii then rp.getD j defaultFibRoutePath
        else mk_fib_path adjGet (paths.getD j defaultLispFwdPath) := by
  intro remaining
  induction remaining with
  | zero =>
      intro ii rp j hlen hsum hj
      have hji : j < ii := by omega
      rw [mk_fib_paths_fill_zero, if_pos hji]
  | succ m ih =>
      intro ii rp j hlen hsum hj
      have hii : ii < rp.length := by omega
      rw [mk_fib_paths_fill_succ,
        if_neg (by simp : ¬ (headPriority paths ≠ headPriority paths))]
      rw [ih (ii + 1)
        (rp.set ii (mk_fib_path adjGet (paths.getD ii defaultLispFwdPath))) j
        (by rw [List.length_set]; exact hlen) (by omega) hj]
      by_cases hji : j < ii
      · rw [if_pos (by omega), if_pos hji]
        exact getD_set_ne rp ii j _ _ (by omega)
      · by_cases hje : j = ii
        · subst hje
          rw [if_pos (by omega), if_neg (by omega)]
          exact getD_set_self rp j _ _ hii
        · rw [if_neg (by omega), if_neg (by omega)]

/-- C8: for every locator pair processed into the route-path set by
lisp_gpe_mk_fib_paths, a weight of zero materializes as route-path weight 1
and every non-zero weight materializes unchanged. -/
theorem c8_weight_normalization (adjGet : Nat → LispGpeAdjacency)
    (paths : List LispFwdPath) (h : paths.length ≠ 0) :
    ∃ rp, lisp_gpe_mk_fib_paths adjGet paths = some rp ∧
      rp.length = paths.length ∧
      ∀ j, j < paths.length →
        (rp.getD j defaultFibRoutePath).frp_weight =
          (if (paths.getD j defaultLispFwdPath).weight = 0 then 1
           else (paths.getD j defaultLispFwdPath).weight) := by
  refine ⟨mk_fib_paths_fill adjGet paths (headPriority paths) paths.length 0
    (List.replicate paths.length defaultFibRoutePath), ?_, ?_, ?_⟩
  · rw [lisp_gpe_mk_fib_paths, if_neg h]
  · rw [mk_fib_paths_fill_length, List.length_replicate]
  · intro j hj
    rw [mk_fib_paths_fill_getD adjGet paths paths.length 0 _ j
      (by rw [List.length_replicate]) (by omega) hj]
    rw [if_neg (by omega)]
    by_cases hw : (paths.getD j defaultLispFwdPath).weight = 0
    · simp [mk_fib_path, hw]
    · simp [mk_fib_path, hw]

/-- C8 witness: the two-path input with weights 0 and 3 satisfies the
hypothesis and materializes weights 1 and 3. -/
theorem c8_weight_normalization_witness :
    c8_paths.length ≠ 0 ∧
    (∃ rp, lisp_gpe_mk_fib_paths c8_adjGet c8_paths = some rp ∧
      rp.length = c8_paths.length ∧
      ∀ j, j < c8_paths.length →
        (rp.getD j defaultFibRoutePath).frp_weight =
          (if (c8_paths.getD j defaultLispFwdPath).weight = 0 then 1
           else (c8_paths.getD j defaultLispFwdPath).weight)) :=
  ⟨by decide, c8_weight_normalization c8_adjGet c8_paths (by decide)⟩

/-- C1 (code bug evaluated at the failing input): on the ascending-priority
input [10, 10, 20] lisp_gpe_mk_fib_paths materializes all three paths — the
loop's break guard compares paths[0].priority against best_priority, which was
initialized from that same element, so the guard never fires and the
priority-20 path (adjacency 3, interface 33) is materialized too; the
materialized active set has size 3, not the 2 the claim requires. -/
theorem c1_priority_filter_never_breaks :
    lisp_gpe_mk_fib_paths c1_adjGet c1_paths =
      some [ { frp_proto := .ip4, frp_addr := 101, frp_sw_if_index := 11,
               frp_weight := 1, frp_label := MPLS_LABEL_INVALID },
             { frp_proto := .ip4, frp_addr := 102, frp_sw_if_index := 22,
               frp_weight := 1, frp_label := MPLS_LABEL_INVALID },
             { frp_proto := .ip4, frp_addr := 103, frp_sw_if_index := 33,
               frp_weight := 1, frp_label := MPLS_LABEL_INVALID } ] ∧
    ((lisp_gpe_mk_fib_paths c1_adjGet c1_paths).getD []).length ≠ 2 := by
  decide

theorem mpls_output_step_buf_indep (adjGet : Nat → IpAdjacency)
    (cs cs' : List (Nat × Nat)) (p : VlibBuffer) :
    (mpls_output_step adjGet cs p).buf = (mpls_output_step adjGet cs' p).buf ∧
    (mpls_output_step adjGet cs p).next = (mpls_output_step adjGet cs' p).next := by
  by_cases h : (adjGet p.tx_adj_index).rewrite_header.max_l3_packet_bytes <
      vlib_buffer_length_in_chain p
  · simp [mpls_output_step, h, IP4_ERROR_MTU_EXCEEDED, IP4_ERROR_NONE]
  · simp [mpls_output_step, h, IP4_ERROR_MTU_EXCEEDED, IP4_ERROR_NONE]

theorem mpls_output_batch_getD (adjGet : Nat → IpAdjacency) :
    ∀ (ps : List VlibBuffer) (cs : List (Nat × Nat)) (i : Nat), i < ps.length →
      (mpls_output_batch adjGet cs ps).1.getD i defaultStepPair =
        ((mpls_output_step adjGet [] (ps.getD i defaultVlibBuffer)).buf,
         (mpls_output_step adjGet [] (ps.getD i defaultVlibBuffer)).next) := by
  intro ps
  induction ps with
  | nil => intro cs i h; simp at h
  | cons p rest ih =>
      intro cs i h
      cases i with
      | zero =>
          simp only [mpls_output_batch, List.getD_cons_zero]
          exact Prod.ext (mpls_output_step_buf_indep adjGet cs [] p).1
            (mpls_output_step_buf_indep adjGet cs [] p).2
      | succ n =>
          simp only [mpls_output_batch, List.getD_cons_succ]
          exact ih _ n (by simpa using h)

/-- C3: for every packet in a rewrite-pipeline batch whose (post-rewrite)
length in chain exceeds the adjacency descriptor's max frame size, the error
is set to MTU_EXCEEDED and the next stage forced to the drop stage while the
data pointer, length and egress interface stay unmodified; for every other
packet the error is NONE, the data pointer/length advance by the rewritten
byte count, and the egress interface and next stage come from the
descriptor.  (The ASSERT on a nonzero adjacency index is the hypothesis.) -/
theorem c3_mtu_and_rewrite_semantics (adjGet : Nat → IpAdjacency)
    (cs : List (Nat × Nat)) (ps : List VlibBuffer) (i : Nat)
    (hi : i < ps.length)
    (hadj : (ps.getD i defaultVlibBuffer).tx_adj_index ≠ 0) :
    ((adjGet (ps.getD i defaultVlibBuffer).tx_adj_index).rewrite_header.max_l3_packet_bytes <
        vlib_buffer_length_in_chain (ps.getD i defaultVlibBuffer) →
      ((mpls_output_batch adjGet cs ps).1.getD i defaultStepPair).1.error =
          IP4_ERROR_MTU_EXCEEDED ∧
      ((mpls_output_batch adjGet cs ps).1.getD i defaultStepPair).2 =
          MPLS_OUTPUT_NEXT_DROP ∧
      ((mpls_output_batch adjGet cs ps).1.getD i defaultStepPair).1.current_data =
          (ps.getD i defaultVlibBuffer).current_data ∧
      ((mpls_output_batch adjGet cs ps).1.getD i defaultStepPair).1.current_length =
          (ps.getD i defaultVlibBuffer).current_length ∧
      ((mpls_output_batch adjGet cs ps).1.getD i defaultStepPair).1.tx_sw_if_index =
          (ps.getD i defaultVlibBuffer).tx_sw_if_index) ∧
    (¬ (adjGet (ps.getD i defaultVlibBuffer).tx_adj_index).rewrite_header.max_l3_packet_bytes <
        vlib_buffer_length_in_chain (ps.getD i defaultVlibBuffer) →
      ((mpls_output_batch adjGet cs ps).1.getD i defaultStepPair).1.error =
          IP4_ERROR_NONE ∧
      ((mpls_output_batch adjGet cs ps).1.getD i defaultStepPair).1.current_data =
          (ps.getD i defaultVlibBuffer).current_data -
            ((adjGet (ps.getD i defaultVlibBuffer).tx_adj_index).rewrite_header.data_bytes : Int) ∧
      ((mpls_output_batch adjGet cs ps).1.getD i defaultStepPair).1.current_length =
          (ps.getD i defaultVlibBuffer).current_length +
            (adjGet (ps.getD i defaultVlibBuffer).tx_adj_index).rewrite_header.data_bytes ∧
      ((mpls_output_batch adjGet cs ps).1.getD i defaultStepPair).1.tx_sw_if_index =
          (adjGet (ps.getD i defaultVlibBuffer).tx_adj_index).rewrite_header.sw_if_index ∧
      ((mpls_output_batch adjGet cs ps).1.getD i defaultStepPair).2 =
          (adjGet (ps.getD i defaultVlibBuffer).tx_adj_index).rewrite_header.next_index) := by
  rw [mpls_output_batch_getD adjGet ps cs i hi]
  obtain ⟨p, hp⟩ : ∃ p, ps.getD i defaultVlibBuffer = p := ⟨_, rfl⟩
  rw [hp]
  by_cases hmtu : (adjGet p.tx_adj_index).rewrite_header.max_l3_packet_bytes <
      vlib_buffer_length_in_chain p
  · constructor
    · intro _
      simp [mpls_output_step, hmtu, IP4_ERROR_NONE, IP4_ERROR_MTU_EXCEEDED,
        MPLS_OUTPUT_NEXT_DROP]
    · intro hc
      exact absurd hmtu hc
  · constructor
    · intro hc
      exact absurd hc hmtu
    · intro _
      simp [mpls_output_step, hmtu, IP4_ERROR_NONE, IP4_ERROR_MTU_EXCEEDED]

/-- C3 witness: the first packet of the concrete batch (length 150 against max
frame 100) and the theorem applied to it. -/
theorem c3_mtu_and_rewrite_semantics_witness :
    0 < c3_ps.length ∧
    (c3_ps.getD 0 defaultVlibBuffer).tx_adj_index ≠ 0 ∧
    (((c3_adjGet (c3_ps.getD 0 defaultVlibBuffer).tx_adj_index).rewrite_header.max_l3_packet_bytes <
        vlib_buffer_length_in_chain (c3_ps.getD 0 defaultVlibBuffer) →
      ((mpls_output_batch c3_adjGet [] c3_ps).1.getD 0 defaultStepPair).1.error =
          IP4_ERROR_MTU_EXCEEDED ∧
      ((mpls_output_batch c3_adjGet [] c3_ps).1.getD 0 defaultStepPair).2 =
          MPLS_OUTPUT_NEXT_DROP ∧
      ((mpls_output_batch c3_adjGet [] c3_ps).1.getD 0 defaultStepPair).1.current_data =
          (c3_ps.getD 0 defaultVlibBuffer).current_data ∧
      ((mpls_output_batch c3_adjGet [] c3_ps).1.getD 0 defaultStepPair).1.current_length =
          (c3_ps.getD 0 defaultVlibBuffer).current_length ∧
      ((mpls_output_batch c3_adjGet [] c3_ps).1.getD 0 defaultStepPair).1.tx_sw_if_index =
          (c3_ps.getD 0 defaultVlibBuffer).tx_sw_if_index) ∧
    (¬ (c3_adjGet (c3_ps.getD 0 defaultVlibBuffer).tx_adj_index).rewrite_header.max_l3_packet_bytes <
        vlib_buffer_length_in_chain (c3_ps.getD 0 defaultVlibBuffer) →
      ((mpls_output_batch c3_adjGet [] c3_ps).1.getD 0 defaultStepPair).1.error =
          IP4_ERROR_NONE ∧
      ((mpls_output_batch c3_adjGet [] c3_ps).1.getD 0 defaultStepPair).1.current_data =
          (c3_ps.getD 0 defaultVlibBuffer).current_data -
            ((c3_adjGet (c3_ps.getD 0 defaultVlibBuffer).tx_adj_index).rewrite_header.data_bytes : Int) ∧
      ((mpls_output_batch c3_adjGet [] c3_ps).1.getD 0 defaultStepPair).1.current_length =
          (c3_ps.getD 0 defaultVlibBuffer).current_length +
            (c3_adjGet (c3_ps.getD 0 defaultVlibBuffer).tx_adj_index).rewrite_header.data_bytes ∧
      ((mpls_output_batch c3_adjGet [] c3_ps).1.getD 0 defaultStepPair).1.tx_sw_if_index =
          (c3_adjGet (c3_ps.getD 0 defaultVlibBuffer).tx_adj_index).rewrite_header.sw_if_index ∧
      ((mpls_output_batch c3_adjGet [] c3_ps).1.getD 0 defaultStepPair).2 =
          (c3_adjGet (c3_ps.getD 0 defaultVlibBuffer).tx_adj_index).rewrite_header.next_index)) :=
  ⟨by decide, by decide,
   c3_mtu_and_rewrite_semantics c3_adjGet [] c3_ps 0 (by decide) (by decide)⟩

/-- C9: for every packet whose rewrite byte count exceeds the Ethernet header
baseline, the per-adjacency byte counter is incremented by the excess, and
this still holds when the packet is classified MTU_EXCEEDED and steered to
the drop stage — the counter update precedes the MTU classification. -/
theorem c9_counter_incremented_before_mtu (adjGet : Nat → IpAdjacency)
    (cs : List (Nat × Nat)) (p : VlibBuffer)
    (h14 : sizeof_ethernet_header < (adjGet p.tx_adj_index).rewrite_header.data_bytes)
    (hadj : p.tx_adj_index ≠ 0) :
    counterGet (mpls_output_step adjGet cs p).counters p.tx_adj_index =
      counterGet cs p.tx_adj_index +
        ((adjGet p.tx_adj_index).rewrite_header.data_bytes - sizeof_ethernet_header) ∧
    ((adjGet p.tx_adj_index).rewrite_header.max_l3_packet_bytes <
        vlib_buffer_length_in_chain p →
      (mpls_output_step adjGet cs p).next = MPLS_OUTPUT_NEXT_DROP ∧
      (mpls_output_step adjGet cs p).buf.error = IP4_ERROR_MTU_EXCEEDED ∧
      counterGet (mpls_output_step adjGet cs p).counters p.tx_adj_index =
        counterGet cs p.tx_adj_index +
          ((adjGet p.tx_adj_index).rewrite_header.data_bytes - sizeof_ethernet_header)) := by
  by_cases hmtu : (adjGet p.tx_adj_index).rewrite_header.max_l3_packet_bytes <
      vlib_buffer_length_in_chain p
  · simp [mpls_output_step, h14, hmtu, counterGet_counterAdd_self,
      IP4_ERROR_NONE, IP4_ERROR_MTU_EXCEEDED, MPLS_OUTPUT_NEXT_DROP]
  · simp [mpls_output_step, h14, hmtu, counterGet_counterAdd_self,
      IP4_ERROR_NONE, IP4_ERROR_MTU_EXCEEDED]

/-- C9 witness: the oversized packet with an 18-byte rewrite; the counter
gains 4 bytes even though the packet is dropped for MTU. -/
theorem c9_counter_incremented_before_mtu_witness :
    sizeof_ethernet_header < (c3_adjGet c9_p.tx_adj_index).rewrite_header.data_bytes ∧
    c9_p.tx_adj_index ≠ 0 ∧
    (counterGet (mpls_output_step c3_adjGet [] c9_p).counters c9_p.tx_adj_index =
      counterGet [] c9_p.tx_adj_index +
        ((c3_adjGet c9_p.tx_adj_index).rewrite_header.data_bytes - sizeof_ethernet_header) ∧
    ((c3_adjGet c9_p.tx_adj_index).rewrite_header.max_l3_packet_bytes <
        vlib_buffer_length_in_chain c9_p →
      (mpls_output_step c3_adjGet [] c9_p).next = MPLS_OUTPUT_NEXT_DROP ∧
      (mpls_output_step c3_adjGet [] c9_p).buf.error = IP4_ERROR_MTU_EXCEEDED ∧
      counterGet (mpls_output_step c3_adjGet [] c9_p).counters c9_p.tx_adj_index =
        counterGet [] c9_p.tx_adj_index +
          ((c3_adjGet c9_p.tx_adj_index).rewrite_header.data_bytes - sizeof_ethernet_header))) :=
  ⟨by decide, by decide,
   c9_counter_incremented_before_mtu c3_adjGet [] c9_p (by decide) (by decide)⟩

/-- C2 (code bug evaluated at the failing input): with the fully-qualified
entry (bd 1, dst MAC 6, src MAC 5) ↦ 7 present, lisp_l2_fib_lookup returns the
configured miss handle 0 instead of the stored result 7, because the first
search's hit falls through to the miss return with its value discarded.  The
rest of the claim does hold: with only the dest-only (zero-source) entry
present the zero-source retry returns its stored 7, and on a total miss the
configured miss handle is returned. -/
theorem c2_exact_hit_returns_miss_handle :
    alookup c2_s.l2_fib (make_mac_fib_key 1 5 6) = some 7 ∧
    lisp_l2_fib_lookup c2_s 1 5 6 = 0 ∧ (0 : Nat) ≠ 7 ∧
    lisp_l2_fib_lookup c2b_s 1 5 6 = 7 ∧
    lisp_l2_fib_lookup baseLispState 1 5 6 = 0 := by
  decide

/-- C10: an add or delete request whose remote eid type is neither IP prefix
nor MAC is rejected by the public dispatcher with an error (-1, or the
feature-disabled code when LISP is disabled) and the state is returned
untouched. -/
theorem c10_unsupported_eid_type_rejected (s : LispState) (a : AddDelArgs)
    (h1 : a.rmt_eid.gtype ≠ GidAddrType.ipPfx)
    (h2 : a.rmt_eid.gtype ≠ GidAddrType.mac) :
    vnet_lisp_gpe_add_del_fwd_entry s a =
      .err (if s.lisp_enabled then -1 else VNET_API_ERROR_LISP_DISABLED) s := by
  cases hg : a.rmt_eid.gtype with
  | ipPfx => exact absurd hg h1
  | mac => exact absurd hg h2
  | srcDst =>
      cases hs : s.lisp_enabled <;>
        simp [vnet_lisp_gpe_add_del_fwd_entry, hg, hs]
  | noAddr =>
      cases hs : s.lisp_enabled <;>
        simp [vnet_lisp_gpe_add_del_fwd_entry, hg, hs]

/-- C10 witness: a src-dst-typed remote eid against the base state. -/
theorem c10_unsupported_eid_type_rejected_witness :
    c10_a.rmt_eid.gtype ≠ GidAddrType.ipPfx ∧
    c10_a.rmt_eid.gtype ≠ GidAddrType.mac ∧
    vnet_lisp_gpe_add_del_fwd_entry baseLispState c10_a =
      .err (if baseLispState.lisp_enabled then -1 else VNET_API_ERROR_LISP_DISABLED)
        baseLispState :=
  ⟨by decide, by decide,
   c10_unsupported_eid_type_rejected baseLispState c10_a (by decide) (by decide)⟩

theorem ip_src_dst_fib_del_route_zero (fs : FibSystem) (src_fib dst_fib : Nat)
    (srcP dstP : IpPref)
    (hz : fib_table_get_num_entries
      (fib_table_entry_delete fs src_fib (ip_pfx_to_fib_pfx srcP)) src_fib = 0) :
    ip_src_dst_fib_del_route fs src_fib srcP dst_fib dstP =
      fib_table_unlock
        (fib_table_entry_special_remove
          (fib_table_entry_delete fs src_fib (ip_pfx_to_fib_pfx srcP))
          dst_fib (ip_pfx_to_fib_pfx dstP))
        src_fib := by
  simp only [ip_src_dst_fib_del_route]
  rw [if_pos hz]

theorem ip_src_dst_fib_del_route_nonzero (fs : FibSystem) (src_fib dst_fib : Nat)
    (srcP dstP : IpPref)
    (hz : ¬ fib_table_get_num_entries
      (fib_table_entry_delete fs src_fib (ip_pfx_to_fib_pfx srcP)) src_fib = 0) :
    ip_src_dst_fib_del_route fs src_fib srcP dst_fib dstP =
      fib_table_entry_delete fs src_fib (ip_pfx_to_fib_pfx srcP) := by
  simp only [ip_src_dst_fib_del_route]
  rw [if_neg hz]

theorem fib_table_unlock_one (fs : FibSystem) (i : Nat)
    (h : alookup fs.locks i = some 1) :
    fib_table_unlock fs i =
      { fs with tables := aremove fs.tables i, locks := aremove fs.locks i,
                table_by_tid := fs.table_by_tid.filter (fun q => q.2 ≠ i) } := by
  simp [fib_table_unlock, h]

/-- C6: withdrawing a source-prefix route removes the source-table route, and
exactly when it was the last route in the private source table (held by its
single lock) the destination redirect route is removed too and the source
table is released; when other source routes remain, the destination redirect
route and the source table stay in place. -/
theorem c6_withdraw_source_route (fs : FibSystem) (src_fib dst_fib : Nat)
    (srcP dstP : IpPref)
    (hne : src_fib ≠ dst_fib)
    (hlock : alookup fs.locks src_fib = some 1) :
    fib_table_lookup_exact_match
        (ip_src_dst_fib_del_route fs src_fib srcP dst_fib dstP) src_fib
        (ip_pfx_to_fib_pfx srcP) = none ∧
    (fib_table_get_num_entries
        (fib_table_entry_delete fs src_fib (ip_pfx_to_fib_pfx srcP)) src_fib = 0 →
      fib_table_lookup_exact_match
          (ip_src_dst_fib_del_route fs src_fib srcP dst_fib dstP) dst_fib
          (ip_pfx_to_fib_pfx dstP) = none ∧
      alookup (ip_src_dst_fib_del_route fs src_fib srcP dst_fib dstP).tables
          src_fib = none ∧
      alookup (ip_src_dst_fib_del_route fs src_fib srcP dst_fib dstP).locks
          src_fib = none) ∧
    (fib_table_get_num_entries
        (fib_table_entry_delete fs src_fib (ip_pfx_to_fib_pfx srcP)) src_fib ≠ 0 →
      fib_table_lookup_exact_match
          (ip_src_dst_fib_del_route fs src_fib srcP dst_fib dstP) dst_fib
          (ip_pfx_to_fib_pfx dstP) =
        fib_table_lookup_exact_match fs dst_fib (ip_pfx_to_fib_pfx dstP) ∧
      (alookup (ip_src_dst_fib_del_route fs src_fib srcP dst_fib dstP).tables
          src_fib).isSome = true) := by
  by_cases hz : fib_table_get_num_entries
      (fib_table_entry_delete fs src_fib (ip_pfx_to_fib_pfx srcP)) src_fib = 0
  · have hl2 : alookup (fib_table_entry_special_remove
        (fib_table_entry_delete fs src_fib (ip_pfx_to_fib_pfx srcP))
        dst_fib (ip_pfx_to_fib_pfx dstP)).locks src_fib = some 1 := hlock
    rw [ip_src_dst_fib_del_route_zero fs src_fib dst_fib srcP dstP hz,
      fib_table_unlock_one _ _ hl2]
    refine ⟨?_, fun _ => ⟨?_, ?_, ?_⟩, fun hnz => absurd hz hnz⟩
    · simp [fib_table_lookup_exact_match, fib_table_get, alookup_aremove_self,
        alookup]
    · simp only [fib_table_lookup_exact_match, fib_table_get]
      rw [alookup_aremove_ne _ src_fib dst_fib hne]
      simp only [fib_table_entry_special_remove]
      rw [alookup_aset_self]
      simp only [Option.getD_some, fib_table_get, fib_table_entry_delete]
      rw [alookup_aset_ne _ src_fib dst_fib _ hne]
      exact alookup_aremove_self _ _
    · exact alookup_aremove_self _ _
    · exact alookup_aremove_self _ _
  · rw [ip_src_dst_fib_del_route_nonzero fs src_fib dst_fib srcP dstP hz]
    refine ⟨?_, fun hez => absurd hez hz, fun _ => ⟨?_, ?_⟩⟩
    · simp only [fib_table_lookup_exact_match, fib_table_get,
        fib_table_entry_delete]
      rw [alookup_aset_self]
      simp only [Option.getD_some]
      exact alookup_aremove_self _ _
    · simp only [fib_table_lookup_exact_match, fib_table_get,
        fib_table_entry_delete]
      rw [alookup_aset_ne _ src_fib dst_fib _ hne]
    · simp only [fib_table_entry_delete]
      rw [alookup_aset_self]
      rfl

/-- C6 witness: the concrete two-table system where the source table holds a
single route, so its withdrawal also removes the destination redirect and
releases the table. -/
theorem c6_withdraw_source_route_witness :
    (1 : Nat) ≠ 0 ∧
    alookup c6_fs.locks 1 = some 1 ∧
    (fib_table_lookup_exact_match
        (ip_src_dst_fib_del_route c6_fs 1 c6_srcP 0 c6_dstP) 1
        (ip_pfx_to_fib_pfx c6_srcP) = none ∧
    (fib_table_get_num_entries
        (fib_table_entry_delete c6_fs 1 (ip_pfx_to_fib_pfx c6_srcP)) 1 = 0 →
      fib_table_lookup_exact_match
          (ip_src_dst_fib_del_route c6_fs 1 c6_srcP 0 c6_dstP) 0
          (ip_pfx_to_fib_pfx c6_dstP) = none ∧
      alookup (ip_src_dst_fib_del_route c6_fs 1 c6_srcP 0 c6_dstP).tables 1 = none ∧
      alookup (ip_src_dst_fib_del_route c6_fs 1 c6_srcP 0 c6_dstP).locks 1 = none) ∧
    (fib_table_get_num_entries
        (fib_table_entry_delete c6_fs 1 (ip_pfx_to_fib_pfx c6_srcP)) 1 ≠ 0 →
      fib_table_lookup_exact_match
          (ip_src_dst_fib_del_route c6_fs 1 c6_srcP 0 c6_dstP) 0
          (ip_pfx_to_fib_pfx c6_dstP) =
        fib_table_lookup_exact_match c6_fs 0 (ip_pfx_to_fib_pfx c6_dstP) ∧
      (alookup (ip_src_dst_fib_del_route c6_fs 1 c6_srcP 0 c6_dstP).tables 1).isSome =
        true)) :=
  ⟨by decide, by decide,
   c6_withdraw_source_route c6_fs 1 0 c6_srcP c6_dstP (by decide) (by decide)⟩

/-- C7 amended: an add whose key already has an entry returns the
duplicate-entry error (VNET_API_ERROR_INVALID_VALUE) with the state exactly as
before — unconditionally for IP-keyed requests, and for MAC-keyed requests
whose bridge domain is known; a MAC-keyed request naming an unknown bridge
domain is rejected first with the bridge-domain error (-1), still with the
state unchanged. -/
theorem c7_duplicate_add_rejected (s : LispState) (a : AddDelArgs)
    (hdup : (find_fwd_entry s a).1.isSome = true) :
    add_ip_fwd_entry s a = .err VNET_API_ERROR_INVALID_VALUE s ∧
    ((alookup s.bd_index_by_bd_id a.bd_id).isSome = true →
      add_l2_fwd_entry s a = .err VNET_API_ERROR_INVALID_VALUE s) ∧
    (alookup s.bd_index_by_bd_id a.bd_id = none →
      add_l2_fwd_entry s a = .err (-1) s) := by
  obtain ⟨lfe, hl⟩ := Option.isSome_iff_exists.mp hdup
  refine ⟨?_, ?_, ?_⟩
  · simp [add_ip_fwd_entry, hl]
  · intro hbd
    obtain ⟨bdi, hb⟩ := Option.isSome_iff_exists.mp hbd
    simp [add_l2_fwd_entry, hb, hl]
  · intro hbd
    simp [add_l2_fwd_entry, hbd]

/-- C7 counterexample: a MAC-keyed add whose key is already stored but whose
bridge domain is unknown returns the bridge-domain error (-1), not the
duplicate-entry error, so the claim as stated fails (the state is still
unchanged). -/
theorem c7_unknown_bd_masks_duplicate :
    (find_fwd_entry c7_s c7_a).1.isSome = true ∧
    add_l2_fwd_entry c7_s c7_a = .err (-1) c7_s ∧
    (-1 : Int) ≠ VNET_API_ERROR_INVALID_VALUE := by
  decide

/-- C7 witness: the duplicate store with the bridge domain known. -/
theorem c7_duplicate_add_rejected_witness :
    (find_fwd_entry c7w_s c7_a).1.isSome = true ∧
    (add_ip_fwd_entry c7w_s c7_a = .err VNET_API_ERROR_INVALID_VALUE c7w_s ∧
    ((alookup c7w_s.bd_index_by_bd_id c7_a.bd_id).isSome = true →
      add_l2_fwd_entry c7w_s c7_a = .err VNET_API_ERROR_INVALID_VALUE c7w_s) ∧
    (alookup c7w_s.bd_index_by_bd_id c7_a.bd_id = none →
      add_l2_fwd_entry c7w_s c7_a = .err (-1) c7w_s)) :=
  ⟨by decide, c7_duplicate_add_rejected c7w_s c7_a (by decide)⟩

/-- C4 amended: an IP-keyed, non-negative add with an empty locator list does
not fail cleanly — it aborts fatally inside the path builder (the u32 length
underflow in vec_validate), and by the abort point the new entry has already
been inserted into the store. -/
theorem c4_empty_locators_fatal_after_insert (s : LispState) (a : AddDelArgs)
    (hfind : (find_fwd_entry s a).1 = none)
    (hneg : a.is_negative = false)
    (hempty : a.locator_pairs = []) :
    ∃ s2, add_ip_fwd_entry s a = .fatal s2 ∧
      (alookup s2.entries (find_fwd_entry s a).2).isSome = true := by
  simp [add_ip_fwd_entry, lisp_gpe_fwd_entry_mk_paths, hfind, hneg, hempty,
    alookup_aset_self]

/-- C4 counterexample: at the concrete empty-locator non-negative add, the
operation's outcome is not an error return — it is a fatal abort whose state
already contains the new entry and differs from the initial state, refuting
"fails with no entry created and no side effects". -/
theorem c4_empty_locators_not_clean_failure :
    c4_a.locator_pairs = [] ∧
    c4_a.is_negative = false ∧
    (find_fwd_entry baseLispState c4_a).1 = none ∧
    (add_ip_fwd_entry baseLispState c4_a).isErr = false ∧
    (add_ip_fwd_entry baseLispState c4_a).isFatal = true ∧
    (alookup (add_ip_fwd_entry baseLispState c4_a).stateOf.entries
        (find_fwd_entry baseLispState c4_a).2).isSome = true ∧
    (add_ip_fwd_entry baseLispState c4_a).stateOf ≠ baseLispState := by
  decide

/-- C4 witness: a second empty-locator add (ip6 remote this time). -/
theorem c4_empty_locators_fatal_after_insert_witness :
    (find_fwd_entry baseLispState c4w_a).1 = none ∧
    c4w_a.is_negative = false ∧
    c4w_a.locator_pairs = [] ∧
    (∃ s2, add_ip_fwd_entry baseLispState c4w_a = .fatal s2 ∧
      (alookup s2.entries (find_fwd_entry baseLispState c4w_a).2).isSome = true) :=
  ⟨by decide, by decide, by decide,
   c4_empty_locators_fatal_after_insert baseLispState c4w_a (by decide) (by decide)
     (by decide)⟩

/-- C5 amended: after adding a MAC-keyed negative entry (any negative action,
drop included), the L2 lookup of its key returns the configured
control-plane-lookup miss handle — whose resolved action is punt to the
control plane, not drop — independent of any path list and of the configured
negative action (which lisp_gpe_l2_update_fwding ignores for L2 entries). -/
theorem c5_negative_l2_lookup_returns_cp_handle (s : LispState) (a : AddDelArgs)
    (bdi : Nat)
    (hbd : alookup s.bd_index_by_bd_id a.bd_id = some bdi)
    (hfind : (find_fwd_entry s a).1 = none)
    (hneg : a.is_negative = true)
    (hcp : alookup s.dpos s.l2_lb_cp_lkup = some DpoAction.puntCp) :
    ∃ s2, add_l2_fwd_entry s a = .ok s2 ∧
      lisp_l2_fib_lookup s2 bdi (fid_addr_mac (find_fwd_entry s a).2.lcl)
          (fid_addr_mac (find_fwd_entry s a).2.rmt) = s.l2_lb_cp_lkup ∧
      alookup s2.dpos s2.l2_lb_cp_lkup = some DpoAction.puntCp ∧
      s2.l2_lb_cp_lkup = s.l2_lb_cp_lkup := by
  simp [add_l2_fwd_entry, lisp_gpe_l2_update_fwding, lisp_l2_fib_add_del_entry,
    lisp_l2_fib_lookup, hbd, hfind, hneg, hcp, alookup_aset_self]

/-- C5 counterexample: at the concrete state, adding the MAC-keyed negative
entry with negative action = drop and looking its key up yields a handle whose
resolved action is punt-to-control-plane, not drop. -/
theorem c5_negative_l2_lookup_not_drop :
    c5_a.action = NegAction.drop ∧
    (add_l2_fwd_entry c5_s c5_a).isOk = true ∧
    alookup (add_l2_fwd_entry c5_s c5_a).stateOf.dpos
        (lisp_l2_fib_lookup (add_l2_fwd_entry c5_s c5_a).stateOf 3 1 2) =
      some DpoAction.puntCp ∧
    DpoAction.puntCp ≠ DpoAction.dropAct := by
  decide

/-- C5 witness: another negative add (action = send-map-request, nonempty
locator list left untouched by the negative branch). -/
theorem c5_negative_l2_lookup_returns_cp_handle_witness :
    alookup c5_s.bd_index_by_bd_id c5w_a.bd_id = some 3 ∧
    (find_fwd_entry c5_s c5w_a).1 = none ∧
    c5w_a.is_negative = true ∧
    alookup c5_s.dpos c5_s.l2_lb_cp_lkup = some DpoAction.puntCp ∧
    (∃ s2, add_l2_fwd_entry c5_s c5w_a = .ok s2 ∧
      lisp_l2_fib_lookup s2 3 (fid_addr_mac (find_fwd_entry c5_s c5w_a).2.lcl)
          (fid_addr_mac (find_fwd_entry c5_s c5w_a).2.rmt) = c5_s.l2_lb_cp_lkup ∧
      alookup s2.dpos s2.l2_lb_cp_lkup = some DpoAction.puntCp ∧
      s2.l2_lb_cp_lkup = c5_s.l2_lb_cp_lkup) :=
  ⟨by decide, by decide, by decide, by decide,
   c5_negative_l2_lookup_returns_cp_handle c5_s c5w_a 3 (by decide) (by decide)
     (by decide) (by decide)⟩
